import Mathlib

/-!
IndexCoord grpc client and querycoordv2 errors

A shallow embedding of

* `internal/querycoordv2/errors.go` (the four package-level error values and
  the three wrapping constructors), and
* `internal/distributed/indexcoord/client/client.go` (the address resolver
  `getIndexCoordAddr`, `Stop`, and the twelve forwarding methods),

together with the properties proved about them.

Go values are modelled as follows.

* An `error` is `Option GoError`, `none` being the nil interface.
* A pointer to a message is `Option Msg`, `none` being the nil pointer.
* A value of type `any` is `AnyVal`: the nil interface, or a pointer
  (possibly nil) tagged with its dynamic type.
* A call that may panic has result type `Exec α`.
-/

set_option autoImplicit false

namespace Milvus

/-! ## Go errors -/

/-- Error values met in the two files.  `errorString` is the value built by
`errors.New` (and by `fmt.Errorf` without `%w`), `wrapError` the value built
by `fmt.Errorf` with one `%w` verb.  Both are pointers and Go compares them
by pointer, so each constructor carries the address of the allocation next
to the content.  `canceled` and `deadlineExceeded` are `context.Canceled`
and `context.DeadlineExceeded`. -/
inductive GoError where
  | errorString (addr : Nat) (s : String)
  | wrapError (addr : Nat) (msg : String) (err : GoError)
  | canceled
  | deadlineExceeded
  deriving DecidableEq, Repr

/-- The Go interface type `error`; `none` is nil. -/
abbrev error := Option GoError

/-- Method `Error()` of each error value. -/
def GoError.Error : GoError → String
  | .errorString _ s => s
  | .wrapError _ msg _ => msg
  | .canceled => "context canceled"
  | .deadlineExceeded => "context deadline exceeded"

/-- Method `Unwrap()`; only `wrapError` has one. -/
def GoError.Unwrap : GoError → error
  | .wrapError _ _ err => some err
  | _ => none

/-- The loop of `errors.Is` on a non-nil chain: compare, then unwrap and go
on; stop with `false` when the value has no `Unwrap` method.  None of the
error types here has an `Is` method. -/
def GoError.isLoop : GoError → GoError → Bool
  | .wrapError addr msg err, target =>
      (GoError.wrapError addr msg err == target) || GoError.isLoop err target
  | err, target => err == target

/-- Go `errors.Is(err, target)`. -/
def errorsIs (err target : error) : Bool :=
  match err, target with
  | some e, some t => GoError.isLoop e t
  | _, _ => err == target

/-- The heap at a call, as far as error values go: every address below
`next` is taken, `next` is where the next value is allocated. -/
structure Heap where
  next : Nat
  deriving DecidableEq, Repr

/-- Go `fmt.Errorf(s)` for a format without verbs: a new `errorString`
allocated at the first free address. -/
def fmtErrorf (h : Heap) (s : String) : GoError := .errorString h.next s

/-- Go `fmt.Errorf` for a format with one `%w` verb, `msg` being the
formatted text and `err` the operand of `%w`: a new `wrapError` allocated at
the first free address. -/
def fmtErrorfWrap (h : Heap) (msg : String) (err : GoError) : GoError :=
  .wrapError h.next msg err

/-- Go `time.Time`; `text` is what its `String()` method renders, which is
what the verb `%v` prints. -/
structure Time where
  unixNano : Int
  text : String
  deriving DecidableEq, Repr

/-! ## internal/querycoordv2/errors.go -/

namespace querycoordv2

/-- `ErrNotHealthy = errors.New("NotHealthy")`, first allocation of the
`var` block. -/
def ErrNotHealthy : GoError := .errorString 0 "NotHealthy"

/-- `ErrLackSegment = errors.New("LackSegment")`. -/
def ErrLackSegment : GoError := .errorString 1 "LackSegment"

/-- `ErrNodeOffline = errors.New("NodeOffline")`. -/
def ErrNodeOffline : GoError := .errorString 2 "NodeOffline"

/-- `ErrNodeHeartbeatOutdated = errors.New("NodeHeartbeatOutdated")`. -/
def ErrNodeHeartbeatOutdated : GoError := .errorString 3 "NodeHeartbeatOutdated"

/-- `fmt.Errorf("%w(segmentID=%v)", ErrLackSegment, segmentID)`; `h` is the
heap at the call. -/
def WrapErrLackSegment (h : Heap) (segmentID : Int) : error :=
  some (fmtErrorfWrap h
    (ErrLackSegment.Error ++ "(segmentID=" ++ toString segmentID ++ ")")
    ErrLackSegment)

/-- `fmt.Errorf("%w(nodeID=%v)", ErrNodeOffline, nodeID)`; `h` is the heap
at the call. -/
def WrapErrNodeOffline (h : Heap) (nodeID : Int) : error :=
  some (fmtErrorfWrap h
    (ErrNodeOffline.Error ++ "(nodeID=" ++ toString nodeID ++ ")")
    ErrNodeOffline)

/-- `fmt.Errorf("%w(nodeID=%v, lastHeartbeat=%v)", ErrNodeHeartbeatOutdated,
nodeID, lastHeartbeat)`; `h` is the heap at the call. -/
def WrapErrNodeHeartbeatOutdated (h : Heap) (nodeID : Int) (lastHeartbeat : Time) : error :=
  some (fmtErrorfWrap h
    (ErrNodeHeartbeatOutdated.Error ++ "(nodeID=" ++ toString nodeID
      ++ ", lastHeartbeat=" ++ lastHeartbeat.text ++ ")")
    ErrNodeHeartbeatOutdated)

end querycoordv2

/-! ## internal/distributed/indexcoord/client/client.go -/

namespace grpcindexcoordclient

/-- Result of running a Go call: it returns `v`, or it panics. -/
inductive Exec (α : Type) where
  | ret (v : α)
  | panic (reason : String)
  deriving DecidableEq, Repr

/-- A protobuf message on the heap, named by its address; a pointer to a
message is `Option Msg`, `none` being the nil pointer. -/
structure Msg where
  addr : Nat
  deriving DecidableEq, Repr

/-- The pointer types that the forwarding methods assert on. -/
inductive RespType where
  | ComponentStates
  | StringResponse
  | Status
  | GetIndexStateResponse
  | GetSegmentIndexStateResponse
  | GetIndexInfoResponse
  | DescribeIndexResponse
  | GetIndexBuildProgressResponse
  | ShowConfigurationsResponse
  | GetMetricsResponse
  | CheckHealthResponse
  deriving DecidableEq, Repr

/-- A Go value of type `any` as the methods meet it: the nil interface, or a
pointer `p` (nil or not) boxed with its dynamic type `ty`. -/
inductive AnyVal where
  | nil
  | ptr (ty : RespType) (p : Option Msg)
  deriving DecidableEq, Repr

/-- The type assertion `ret.(*T)`: it yields the boxed pointer when the
dynamic type is `*T`, and panics otherwise (also on the nil interface). -/
def AnyVal.assert (ty : RespType) : AnyVal → Exec (Option Msg)
  | .nil => .panic "interface conversion: interface is nil"
  | .ptr dyn p =>
      if dyn = ty then .ret p else .panic "interface conversion: wrong dynamic type"

/-- A `context.Context`, as seen by this file: the value of `ctx.Err()`.
It is nil while the context is live, `context.Canceled` once cancelled and
`context.DeadlineExceeded` once past the deadline; once non-nil it does not
change. -/
structure Context where
  Err : error
  deriving DecidableEq, Repr

/-- Modelled from the spec: `funcutil.CheckCtxValid` is not under src/.  The
context is valid unless it is already done, that is, cancelled or past its
deadline. -/
def CheckCtxValid (ctx : Context) : Bool :=
  ctx.Err != some GoError.deadlineExceeded && ctx.Err != some GoError.canceled

/-- Field `Base` of a request (`commonpb.MsgBase`), the part that
`ShowConfigurations` and `GetMetrics` rewrite. -/
structure MsgBase where
  SourceID : Int
  TargetID : Int
  deriving DecidableEq, Repr

/-- A typed request message; `body` stands for the fields this file never
looks at. -/
structure Request where
  body : Nat
  base : Option MsgBase
  deriving DecidableEq, Repr

/-- The literal `&T{}`: a request with every field zero. -/
def Request.zero : Request := ⟨0, none⟩

/-- The twelve operations forwarded by `Client`. -/
inductive Method where
  | GetComponentStates
  | GetStatisticsChannel
  | CreateIndex
  | GetIndexState
  | GetSegmentIndexState
  | GetIndexInfos
  | DescribeIndex
  | GetIndexBuildProgress
  | DropIndex
  | ShowConfigurations
  | GetMetrics
  | CheckHealth
  deriving DecidableEq, Repr

/-- The stub `indexpb.IndexCoordClient`: one remote operation per method,
each returning a typed pointer and an error. -/
structure IndexCoordClient where
  GetComponentStates : Context → Request → Option Msg × error
  GetStatisticsChannel : Context → Request → Option Msg × error
  CreateIndex : Context → Request → Option Msg × error
  GetIndexState : Context → Request → Option Msg × error
  GetSegmentIndexState : Context → Request → Option Msg × error
  GetIndexInfos : Context → Request → Option Msg × error
  DescribeIndex : Context → Request → Option Msg × error
  GetIndexBuildProgress : Context → Request → Option Msg × error
  DropIndex : Context → Request → Option Msg × error
  ShowConfigurations : Context → Request → Option Msg × error
  GetMetrics : Context → Request → Option Msg × error
  CheckHealth : Context → Request → Option Msg × error

/-- What one run of a call closure yields: the two returned values and the
remote operations it performed on the stub, in order. -/
structure CallResult where
  ret : AnyVal
  err : error
  remote : List Method
  deriving DecidableEq, Repr

/-- The closure type `func(client indexpb.IndexCoordClient) (any, error)`. -/
abbrev CallFn := IndexCoordClient → CallResult

/-- The statement `return nil, ctx.Err()` of a closure: no remote call. -/
def CallResult.early (err : error) : CallResult := ⟨AnyVal.nil, err, []⟩

/-- The statement `return client.Op(ctx, req)` of a closure: one remote
call; the typed pointer it returns is converted to `any`, which boxes it
with its type even when the pointer is nil. -/
def CallResult.remoteCall (m : Method) (ty : RespType) (r : Option Msg × error) :
    CallResult :=
  ⟨AnyVal.ptr ty r.1, r.2, [m]⟩

/-- A `grpc.ClientConn` held by the grpc client; `closeErr` is what closing
it reports. -/
structure Connection where
  address : String
  closeErr : error
  deriving DecidableEq, Repr

/-- The field `grpcClient` (`grpcclient.GrpcClient`), whose code is not in
this file.  `ReCall` is taken as a parameter: any function from the context
and the closure to the pair it returns.  `conn`, `keepAlive` and `dials` are
the state the spec gives it: the current connection, whether its keep-alive
task runs, and the number of connection-factory calls made so far. -/
structure GrpcClient where
  role : String
  ReCall : Context → CallFn → AnyVal × error
  conn : Option Connection
  keepAlive : Bool
  dials : Nat

/-- Modelled from the spec: `GetRole` of package grpcclient is not under
src/.  The role is the logical name used as the registry lookup key,
immutable for the lifetime of the client. -/
def GrpcClient.GetRole (g : GrpcClient) : String := g.role

/-- Modelled from the spec: `Close` of package grpcclient is not under src/.
It releases the current connection and any background keep-alive task and
reports what closing the connection reported; with no connection left there
is nothing to release and it returns nil.  It never calls the connection
factory. -/
def GrpcClient.Close (g : GrpcClient) : error × GrpcClient :=
  match g.conn with
  | none => (none, { g with conn := none, keepAlive := false })
  | some cn => (cn.closeErr, { g with conn := none, keepAlive := false })

/-- A session record of the registry (`sessionutil.Session`), with the
fields this file reads. -/
structure Session where
  ServerID : Int
  Address : String
  deriving DecidableEq, Repr

/-- A Go `map[string]*Session`: keys with pointers, looked up by the first
matching key. -/
abbrev SessionMap := List (String × Option Session)

/-- The expression `msess[key]` with the comma-ok form: `none` when the key
is absent, else the stored pointer. -/
def SessionMap.get (m : SessionMap) (key : String) : Option (Option Session) :=
  List.lookup key m

/-- The field `sess` of the client: its own `ServerID`, and `GetSessions`,
the registry query, taken as a parameter (package sessionutil is not in this
file).  The query returns the sessions, a revision and an error. -/
structure SessionHandle where
  ServerID : Int
  GetSessions : String → SessionMap × Int × error

/-- Functions of other packages used by `ShowConfigurations` and
`GetMetrics`, taken as parameters: `paramtable.GetNodeID()`,
`typeutil.Clone`, and the effect on the request of
`commonpbutil.UpdateMsgBase(req.GetBase(),
 commonpbutil.FillMsgBaseFromClient(sourceID, commonpbutil.WithTargetID(targetID)))`. -/
structure Deps where
  GetNodeID : Int
  Clone : Request → Request
  UpdateMsgBase : Request → Int → Int → Request

/-- The struct `Client`. -/
structure Client where
  grpcClient : GrpcClient
  sess : SessionHandle

/-- Go `func (c *Client) Stop() error`. -/
def Client.Stop (c : Client) : error × Client :=
  let r := c.grpcClient.Close
  (r.1, { c with grpcClient := r.2 })

/-- Go `func (c *Client) getIndexCoordAddr() (string, error)`; `h` is the
heap at the call.  Reading `ms.Address` through a nil pointer panics. -/
def Client.getIndexCoordAddr (c : Client) (h : Heap) : Exec (String × error) :=
  let key := c.grpcClient.GetRole
  let r := c.sess.GetSessions key
  let msess := r.1
  let err := r.2.2
  if err ≠ none then
    .ret ("", err)
  else
    match msess.get key with
    | none => .ret ("", some (fmtErrorf h "find no available indexcoord, check indexcoord state"))
    | some none => .panic "invalid memory address or nil pointer dereference"
    | some (some ms) => .ret (ms.Address, none)

/-- What a forwarding method does: the contexts of its calls to
`c.grpcClient.ReCall`, in order, and how the method ends. -/
structure Run where
  reCalls : List Context
  out : Exec (Option Msg × error)

/-- The statement `return ret.(*T), err`: the type assertion is evaluated
first and may panic. -/
def returnAsserted (ty : RespType) (ret : AnyVal) (err : error) :
    Exec (Option Msg × error) :=
  match ret.assert ty with
  | .ret p => .ret (p, err)
  | .panic reason => .panic reason

/-- The func literal that `GetComponentStates` hands to `ReCall`. -/
def callerGetComponentStates (ctx : Context) : CallFn := fun client =>
  if !CheckCtxValid ctx then
    CallResult.early ctx.Err
  else
    CallResult.remoteCall Method.GetComponentStates RespType.ComponentStates (client.GetComponentStates ctx Request.zero)

/-- Go `func (c *Client) GetComponentStates` (client.go 122-133). -/
def Client.GetComponentStates (c : Client) (ctx : Context) : Run :=
  let r := c.grpcClient.ReCall ctx (callerGetComponentStates ctx)
  let ret := r.1
  let err := r.2
  { reCalls := [ctx],
    out :=
      if err ≠ none ∨ ret = AnyVal.nil then
        Exec.ret (none, err)
      else
        returnAsserted RespType.ComponentStates ret err }

/-- The func literal that `GetStatisticsChannel` hands to `ReCall`. -/
def callerGetStatisticsChannel (ctx : Context) : CallFn := fun client =>
  if !CheckCtxValid ctx then
    CallResult.early ctx.Err
  else
    CallResult.remoteCall Method.GetStatisticsChannel RespType.StringResponse (client.GetStatisticsChannel ctx Request.zero)

/-- Go `func (c *Client) GetStatisticsChannel` (client.go 136-147). -/
def Client.GetStatisticsChannel (c : Client) (ctx : Context) : Run :=
  let r := c.grpcClient.ReCall ctx (callerGetStatisticsChannel ctx)
  let ret := r.1
  let err := r.2
  { reCalls := [ctx],
    out :=
      if err ≠ none ∨ ret = AnyVal.nil then
        Exec.ret (none, err)
      else
        returnAsserted RespType.StringResponse ret err }

/-- The func literal that `CreateIndex` hands to `ReCall`. -/
def callerCreateIndex (ctx : Context) (req : Request) : CallFn := fun client =>
  if !CheckCtxValid ctx then
    CallResult.early ctx.Err
  else
    CallResult.remoteCall Method.CreateIndex RespType.Status (client.CreateIndex ctx req)

/-- Go `func (c *Client) CreateIndex` (client.go 150-161). -/
def Client.CreateIndex (c : Client) (ctx : Context) (req : Request) : Run :=
  let r := c.grpcClient.ReCall ctx (callerCreateIndex ctx req)
  let ret := r.1
  let err := r.2
  { reCalls := [ctx],
    out :=
      if err ≠ none ∨ ret = AnyVal.nil then
        Exec.ret (none, err)
      else
        returnAsserted RespType.Status ret err }

/-- The func literal that `GetIndexState` hands to `ReCall`. -/
def callerGetIndexState (ctx : Context) (req : Request) : CallFn := fun client =>
  if !CheckCtxValid ctx then
    CallResult.early ctx.Err
  else
    CallResult.remoteCall Method.GetIndexState RespType.GetIndexStateResponse (client.GetIndexState ctx req)

/-- Go `func (c *Client) GetIndexState` (client.go 164-175). -/
def Client.GetIndexState (c : Client) (ctx : Context) (req : Request) : Run :=
  let r := c.grpcClient.ReCall ctx (callerGetIndexState ctx req)
  let ret := r.1
  let err := r.2
  { reCalls := [ctx],
    out :=
      if err ≠ none ∨ ret = AnyVal.nil then
        Exec.ret (none, err)
      else
        returnAsserted RespType.GetIndexStateResponse ret err }

/-- The func literal that `GetSegmentIndexState` hands to `ReCall`. -/
def callerGetSegmentIndexState (ctx : Context) (req : Request) : CallFn := fun client =>
  if !CheckCtxValid ctx then
    CallResult.early ctx.Err
  else
    CallResult.remoteCall Method.GetSegmentIndexState RespType.GetSegmentIndexStateResponse (client.GetSegmentIndexState ctx req)

/-- Go `func (c *Client) GetSegmentIndexState` (client.go 178-189). -/
def Client.GetSegmentIndexState (c : Client) (ctx : Context) (req : Request) : Run :=
  let r := c.grpcClient.ReCall ctx (callerGetSegmentIndexState ctx req)
  let ret := r.1
  let err := r.2
  { reCalls := [ctx],
    out :=
      if err ≠ none ∨ ret = AnyVal.nil then
        Exec.ret (none, err)
      else
        returnAsserted RespType.GetSegmentIndexStateResponse ret err }

/-- The func literal that `GetIndexInfos` hands to `ReCall`. -/
def callerGetIndexInfos (ctx : Context) (req : Request) : CallFn := fun client =>
  if !CheckCtxValid ctx then
    CallResult.early ctx.Err
  else
    CallResult.remoteCall Method.GetIndexInfos RespType.GetIndexInfoResponse (client.GetIndexInfos ctx req)

/-- Go `func (c *Client) GetIndexInfos` (client.go 192-203). -/
def Client.GetIndexInfos (c : Client) (ctx : Context) (req : Request) : Run :=
  let r := c.grpcClient.ReCall ctx (callerGetIndexInfos ctx req)
  let ret := r.1
  let err := r.2
  { reCalls := [ctx],
    out :=
      if err ≠ none ∨ ret = AnyVal.nil then
        Exec.ret (none, err)
      else
        returnAsserted RespType.GetIndexInfoResponse ret err }

/-- The func literal that `DescribeIndex` hands to `ReCall`. -/
def callerDescribeIndex (ctx : Context) (req : Request) : CallFn := fun client =>
  if !CheckCtxValid ctx then
    CallResult.early ctx.Err
  else
    CallResult.remoteCall Method.DescribeIndex RespType.DescribeIndexResponse (client.DescribeIndex ctx req)

/-- Go `func (c *Client) DescribeIndex` (client.go 206-217). -/
def Client.DescribeIndex (c : Client) (ctx : Context) (req : Request) : Run :=
  let r := c.grpcClient.ReCall ctx (callerDescribeIndex ctx req)
  let ret := r.1
  let err := r.2
  { reCalls := [ctx],
    out :=
      if err ≠ none ∨ ret = AnyVal.nil then
        Exec.ret (none, err)
      else
        returnAsserted RespType.DescribeIndexResponse ret err }

/-- The func literal that `GetIndexBuildProgress` hands to `ReCall`. -/
def callerGetIndexBuildProgress (ctx : Context) (req : Request) : CallFn := fun client =>
  if !CheckCtxValid ctx then
    CallResult.early ctx.Err
  else
    CallResult.remoteCall Method.GetIndexBuildProgress RespType.GetIndexBuildProgressResponse (client.GetIndexBuildProgress ctx req)

/-- Go `func (c *Client) GetIndexBuildProgress` (client.go 220-231). -/
def Client.GetIndexBuildProgress (c : Client) (ctx : Context) (req : Request) : Run :=
  let r := c.grpcClient.ReCall ctx (callerGetIndexBuildProgress ctx req)
  let ret := r.1
  let err := r.2
  { reCalls := [ctx],
    out :=
      if err ≠ none ∨ ret = AnyVal.nil then
        Exec.ret (none, err)
      else
        returnAsserted RespType.GetIndexBuildProgressResponse ret err }

/-- The func literal that `DropIndex` hands to `ReCall`. -/
def callerDropIndex (ctx : Context) (req : Request) : CallFn := fun client =>
  if !CheckCtxValid ctx then
    CallResult.early ctx.Err
  else
    CallResult.remoteCall Method.DropIndex RespType.Status (client.DropIndex ctx req)

/-- Go `func (c *Client) DropIndex` (client.go 234-245). -/
def Client.DropIndex (c : Client) (ctx : Context) (req : Request) : Run :=
  let r := c.grpcClient.ReCall ctx (callerDropIndex ctx req)
  let ret := r.1
  let err := r.2
  { reCalls := [ctx],
    out :=
      if err ≠ none ∨ ret = AnyVal.nil then
        Exec.ret (none, err)
      else
        returnAsserted RespType.Status ret err }

/-- The func literal that `ShowConfigurations` hands to `ReCall`. -/
def callerShowConfigurations (ctx : Context) (req : Request) : CallFn := fun client =>
  if !CheckCtxValid ctx then
    CallResult.early ctx.Err
  else
    CallResult.remoteCall Method.ShowConfigurations RespType.ShowConfigurationsResponse (client.ShowConfigurations ctx req)

/-- Go `func (c *Client) ShowConfigurations` (client.go 248-265); the request is cloned
and its base rewritten before the call. -/
def Client.ShowConfigurations (d : Deps) (c : Client) (ctx : Context) (req : Request) : Run :=
  let req := d.Clone req
  let req := d.UpdateMsgBase req d.GetNodeID c.sess.ServerID
  let r := c.grpcClient.ReCall ctx (callerShowConfigurations ctx req)
  let ret := r.1
  let err := r.2
  { reCalls := [ctx],
    out :=
      if err ≠ none ∨ ret = AnyVal.nil then
        Exec.ret (none, err)
      else
        returnAsserted RespType.ShowConfigurationsResponse ret err }

/-- The func literal that `GetMetrics` hands to `ReCall`. -/
def callerGetMetrics (ctx : Context) (req : Request) : CallFn := fun client =>
  if !CheckCtxValid ctx then
    CallResult.early ctx.Err
  else
    CallResult.remoteCall Method.GetMetrics RespType.GetMetricsResponse (client.GetMetrics ctx req)

/-- Go `func (c *Client) GetMetrics` (client.go 268-284); the request is cloned
and its base rewritten before the call. -/
def Client.GetMetrics (d : Deps) (c : Client) (ctx : Context) (req : Request) : Run :=
  let req := d.Clone req
  let req := d.UpdateMsgBase req d.GetNodeID c.sess.ServerID
  let r := c.grpcClient.ReCall ctx (callerGetMetrics ctx req)
  let ret := r.1
  let err := r.2
  { reCalls := [ctx],
    out :=
      if err ≠ none ∨ ret = AnyVal.nil then
        Exec.ret (none, err)
      else
        returnAsserted RespType.GetMetricsResponse ret err }

/-- The func literal that `CheckHealth` hands to `ReCall`. -/
def callerCheckHealth (ctx : Context) (req : Request) : CallFn := fun client =>
  if !CheckCtxValid ctx then
    CallResult.early ctx.Err
  else
    CallResult.remoteCall Method.CheckHealth RespType.CheckHealthResponse (client.CheckHealth ctx req)

/-- Go `func (c *Client) CheckHealth` (client.go 286-297). -/
def Client.CheckHealth (c : Client) (ctx : Context) (req : Request) : Run :=
  let r := c.grpcClient.ReCall ctx (callerCheckHealth ctx req)
  let ret := r.1
  let err := r.2
  { reCalls := [ctx],
    out :=
      if err ≠ none ∨ ret = AnyVal.nil then
        Exec.ret (none, err)
      else
        returnAsserted RespType.CheckHealthResponse ret err }

/-- The pointer type each method returns. -/
def Method.respType : Method → RespType
  | .GetComponentStates => RespType.ComponentStates
  | .GetStatisticsChannel => RespType.StringResponse
  | .CreateIndex => RespType.Status
  | .GetIndexState => RespType.GetIndexStateResponse
  | .GetSegmentIndexState => RespType.GetSegmentIndexStateResponse
  | .GetIndexInfos => RespType.GetIndexInfoResponse
  | .DescribeIndex => RespType.DescribeIndexResponse
  | .GetIndexBuildProgress => RespType.GetIndexBuildProgressResponse
  | .DropIndex => RespType.Status
  | .ShowConfigurations => RespType.ShowConfigurationsResponse
  | .GetMetrics => RespType.GetMetricsResponse
  | .CheckHealth => RespType.CheckHealthResponse

/-- The closure that method `m` hands to `ReCall` when called with `ctx` and
`req`. -/
def Client.callerOf (d : Deps) (c : Client) (m : Method) (ctx : Context) (req : Request) :
    CallFn :=
  match m with
  | .GetComponentStates => callerGetComponentStates ctx
  | .GetStatisticsChannel => callerGetStatisticsChannel ctx
  | .CreateIndex => callerCreateIndex ctx req
  | .GetIndexState => callerGetIndexState ctx req
  | .GetSegmentIndexState => callerGetSegmentIndexState ctx req
  | .GetIndexInfos => callerGetIndexInfos ctx req
  | .DescribeIndex => callerDescribeIndex ctx req
  | .GetIndexBuildProgress => callerGetIndexBuildProgress ctx req
  | .DropIndex => callerDropIndex ctx req
  | .ShowConfigurations => callerShowConfigurations ctx (d.UpdateMsgBase (d.Clone req) d.GetNodeID c.sess.ServerID)
  | .GetMetrics => callerGetMetrics ctx (d.UpdateMsgBase (d.Clone req) d.GetNodeID c.sess.ServerID)
  | .CheckHealth => callerCheckHealth ctx req

/-- A call of method `m` of the client with `ctx` and `req`. -/
def Client.forward (d : Deps) (c : Client) (m : Method) (ctx : Context) (req : Request) :
    Run :=
  match m with
  | .GetComponentStates => Client.GetComponentStates c ctx
  | .GetStatisticsChannel => Client.GetStatisticsChannel c ctx
  | .CreateIndex => Client.CreateIndex c ctx req
  | .GetIndexState => Client.GetIndexState c ctx req
  | .GetSegmentIndexState => Client.GetSegmentIndexState c ctx req
  | .GetIndexInfos => Client.GetIndexInfos c ctx req
  | .DescribeIndex => Client.DescribeIndex c ctx req
  | .GetIndexBuildProgress => Client.GetIndexBuildProgress c ctx req
  | .DropIndex => Client.DropIndex c ctx req
  | .ShowConfigurations => Client.ShowConfigurations d c ctx req
  | .GetMetrics => Client.GetMetrics d c ctx req
  | .CheckHealth => Client.CheckHealth c ctx req

/-- What `ReCall` answers when method `m` is called with `ctx` and `req`. -/
def Client.invoke (d : Deps) (c : Client) (m : Method) (ctx : Context) (req : Request) :
    AnyVal × error :=
  c.grpcClient.ReCall ctx (c.callerOf d m ctx req)

/-! ### Sample inputs -/

/-- A stub whose every operation answers the message at address 7 with a nil
error. -/
def sampleStub : IndexCoordClient :=
  { GetComponentStates := fun _ _ => (some ⟨7⟩, none)
    GetStatisticsChannel := fun _ _ => (some ⟨7⟩, none)
    CreateIndex := fun _ _ => (some ⟨7⟩, none)
    GetIndexState := fun _ _ => (some ⟨7⟩, none)
    GetSegmentIndexState := fun _ _ => (some ⟨7⟩, none)
    GetIndexInfos := fun _ _ => (some ⟨7⟩, none)
    DescribeIndex := fun _ _ => (some ⟨7⟩, none)
    GetIndexBuildProgress := fun _ _ => (some ⟨7⟩, none)
    DropIndex := fun _ _ => (some ⟨7⟩, none)
    ShowConfigurations := fun _ _ => (some ⟨7⟩, none)
    GetMetrics := fun _ _ => (some ⟨7⟩, none)
    CheckHealth := fun _ _ => (some ⟨7⟩, none) }

/-- A `ReCall` that runs the closure once on `sampleStub` and returns what
the closure returned. -/
def runOnce : Context → CallFn → AnyVal × error :=
  fun _ caller => ((caller sampleStub).ret, (caller sampleStub).err)

/-- A `ReCall` that reports success without a result: `(nil, nil)`. -/
def emptySuccess : Context → CallFn → AnyVal × error :=
  fun _ _ => (AnyVal.nil, none)

/-- A registry with one index coordinator, at `10.0.0.1:31000`. -/
def sampleSessions : SessionMap :=
  [("indexcoord", some ⟨5, "10.0.0.1:31000"⟩)]

/-- A client of role `indexcoord` with the given `ReCall` and registry
answer, holding a connection. -/
def sampleClient (reCall : Context → CallFn → AnyVal × error)
    (answer : SessionMap × Int × error) : Client :=
  { grpcClient :=
      { role := "indexcoord", ReCall := reCall,
        conn := some ⟨"10.0.0.1:31000", none⟩, keepAlive := true, dials := 1 }
    sess := { ServerID := 9, GetSessions := fun _ => answer } }

/-- Utility functions that leave the request as it is. -/
def sampleDeps : Deps :=
  { GetNodeID := 1, Clone := fun r => r, UpdateMsgBase := fun r _ _ => r }

/-- A context that has been cancelled. -/
def ctxCanceled : Context := ⟨some GoError.canceled⟩

/-- A live context. -/
def ctxLive : Context := ⟨none⟩

/-- An error as the registry reports it when it cannot be reached. -/
def etcdDown : GoError := .errorString 40 "etcdserver: request timed out"

/-- A heap whose first free address is 64. -/
def sampleHeap : Heap := ⟨64⟩

/-- An error that the registry query builds during the call, at the first
free address of `sampleHeap`, with the text the resolver uses when it finds
no instance. -/
def registryLookalike : GoError :=
  .errorString 64 "find no available indexcoord, check indexcoord state"

/-- A registry answer without an index coordinator. -/
def otherSessions : SessionMap :=
  [("datacoord", some ⟨2, "10.0.0.2:13333"⟩)]

end grpcindexcoordclient

/-! ## Properties of errors.go -/

namespace querycoordv2

/-- Claim C10: each wrapper wraps exactly its own sentinel.  For every id,
every timestamp and every heap in which the wrapped error is allocated,
`errors.Is` finds `ErrLackSegment` in `WrapErrLackSegment id`,
`ErrNodeOffline` in `WrapErrNodeOffline id` and `ErrNodeHeartbeatOutdated` in
`WrapErrNodeHeartbeatOutdated id t`, and finds none of the other three
sentinels in any of the wrapped errors. -/
theorem wrappers_match_own_sentinel_only (h : Heap) (id : Int) (t : Time) :
    errorsIs (WrapErrLackSegment h id) (some ErrLackSegment) = true
    ∧ errorsIs (WrapErrNodeOffline h id) (some ErrNodeOffline) = true
    ∧ errorsIs (WrapErrNodeHeartbeatOutdated h id t) (some ErrNodeHeartbeatOutdated) = true
    ∧ errorsIs (WrapErrLackSegment h id) (some ErrNotHealthy) = false
    ∧ errorsIs (WrapErrLackSegment h id) (some ErrNodeOffline) = false
    ∧ errorsIs (WrapErrLackSegment h id) (some ErrNodeHeartbeatOutdated) = false
    ∧ errorsIs (WrapErrNodeOffline h id) (some ErrNotHealthy) = false
    ∧ errorsIs (WrapErrNodeOffline h id) (some ErrLackSegment) = false
    ∧ errorsIs (WrapErrNodeOffline h id) (some ErrNodeHeartbeatOutdated) = false
    ∧ errorsIs (WrapErrNodeHeartbeatOutdated h id t) (some ErrNotHealthy) = false
    ∧ errorsIs (WrapErrNodeHeartbeatOutdated h id t) (some ErrLackSegment) = false
    ∧ errorsIs (WrapErrNodeHeartbeatOutdated h id t) (some ErrNodeOffline) = false := by
  simp [errorsIs, GoError.isLoop, fmtErrorfWrap, WrapErrLackSegment, WrapErrNodeOffline,
    WrapErrNodeHeartbeatOutdated, ErrNotHealthy, ErrLackSegment, ErrNodeOffline,
    ErrNodeHeartbeatOutdated]

end querycoordv2

/-! ## Properties of client.go -/

namespace grpcindexcoordclient

/-! ### Shared lemmas -/

/-- Every forwarding method ends the same way: on an error or a nil result
it returns nil with the error of `ReCall`, otherwise the asserted result. -/
theorem forward_out_eq (d : Deps) (c : Client) (m : Method) (ctx : Context) (req : Request) :
    (c.forward d m ctx req).out =
      if (c.invoke d m ctx req).2 ≠ none ∨ (c.invoke d m ctx req).1 = AnyVal.nil then
        Exec.ret (none, (c.invoke d m ctx req).2)
      else
        returnAsserted m.respType (c.invoke d m ctx req).1 (c.invoke d m ctx req).2 := by
  cases m <;> rfl

/-- Every forwarding method calls `ReCall` once, with its own context. -/
theorem forward_reCalls_eq (d : Deps) (c : Client) (m : Method) (ctx : Context)
    (req : Request) : (c.forward d m ctx req).reCalls = [ctx] := by
  cases m <;> rfl

/-- A closure run under a context that is not valid returns early. -/
theorem callerOf_not_valid (d : Deps) (c : Client) (m : Method) (ctx : Context)
    (req : Request) (client : IndexCoordClient) (h : CheckCtxValid ctx = false) :
    c.callerOf d m ctx req client = CallResult.early ctx.Err := by
  cases m <;>
    simp [Client.callerOf, callerGetComponentStates, callerGetStatisticsChannel,
      callerCreateIndex, callerGetIndexState, callerGetSegmentIndexState, callerGetIndexInfos,
      callerDescribeIndex, callerGetIndexBuildProgress, callerDropIndex,
      callerShowConfigurations, callerGetMetrics, callerCheckHealth, h]

/-- The context is not valid exactly when it is cancelled or past its
deadline. -/
theorem checkCtxValid_false_iff (ctx : Context) :
    CheckCtxValid ctx = false ↔
      (ctx.Err = some GoError.canceled ∨ ctx.Err = some GoError.deadlineExceeded) := by
  unfold CheckCtxValid
  constructor
  · intro h
    by_cases h1 : ctx.Err = some GoError.deadlineExceeded
    · exact Or.inr h1
    · by_cases h2 : ctx.Err = some GoError.canceled
      · exact Or.inl h2
      · simp [h1, h2] at h
  · rintro (h | h) <;> simp [h]

/-- A successful lookup returns an entry of the list. -/
theorem lookup_mem {β : Type} (key : String) (v : β) :
    ∀ (l : List (String × β)), List.lookup key l = some v → (key, v) ∈ l := by
  intro l
  induction l with
  | nil => intro h; simp [List.lookup] at h
  | cons hd tl ih =>
    intro h
    obtain ⟨k, w⟩ := hd
    by_cases hk : key = k
    · subst hk
      simp [List.lookup] at h
      simp [h]
    · have hb : (key == k) = false := by simpa using hk
      simp [List.lookup, hb] at h
      exact List.mem_cons_of_mem _ (ih h)

/-! ### The forwarding methods -/

/-- Claim C1: for every forwarding method and every outcome `(ret, err)` of
`ReCall`, if `err` is non-nil or `ret` is nil, the method returns a nil
response together with exactly that `err`. -/
theorem forward_nil_on_error_or_nil_result (d : Deps) (c : Client) (m : Method)
    (ctx : Context) (req : Request)
    (h : (c.invoke d m ctx req).2 ≠ none ∨ (c.invoke d m ctx req).1 = AnyVal.nil) :
    (c.forward d m ctx req).out = Exec.ret (none, (c.invoke d m ctx req).2) := by
  rw [forward_out_eq, if_pos h]

/-- Claim C1 at `CreateIndex` on a cancelled context, where `ReCall` runs the
closure once: the error is `context.Canceled` and comes back with a nil
response. -/
theorem forward_nil_on_error_or_nil_result_witness :
    ((sampleClient runOnce (sampleSessions, 0, none)).invoke sampleDeps
        Method.CreateIndex ctxCanceled Request.zero).2 ≠ none
    ∧ ((sampleClient runOnce (sampleSessions, 0, none)).forward sampleDeps
        Method.CreateIndex ctxCanceled Request.zero).out
      = Exec.ret (none, some GoError.canceled) :=
  ⟨by decide,
   forward_nil_on_error_or_nil_result sampleDeps (sampleClient runOnce (sampleSessions, 0, none))
     Method.CreateIndex ctxCanceled Request.zero (Or.inl (by decide))⟩

/-- Claim C2 fails as stated: `GetComponentStates` called with a cancelled
context does call `ReCall` (once, with that context), so it is not the case
that `ReCall` is not called and the method returns the cancellation error
on its own. -/
theorem done_context_still_reaches_ReCall :
    CheckCtxValid ctxCanceled = false
    ∧ ((sampleClient runOnce (sampleSessions, 0, none)).forward sampleDeps
        Method.GetComponentStates ctxCanceled Request.zero).reCalls = [ctxCanceled]
    ∧ ¬ (((sampleClient runOnce (sampleSessions, 0, none)).forward sampleDeps
            Method.GetComponentStates ctxCanceled Request.zero).reCalls = []
          ∧ ((sampleClient runOnce (sampleSessions, 0, none)).forward sampleDeps
            Method.GetComponentStates ctxCanceled Request.zero).out
            = Exec.ret (none, ctxCanceled.Err)) := by
  refine ⟨by decide, rfl, ?_⟩
  rintro ⟨h, -⟩
  simp [forward_reCalls_eq] at h

/-- Claim C2 as amended: for every forwarding method and every context that
is already done, the method does not short-circuit before `ReCall`; it calls
`ReCall` exactly once, with that context.  The context check sits inside the
closure it hands over: run on any stub, that closure performs no remote call
and returns nil with the error of the context.  So for every `ReCall` that
answers what the closure answered on some stub, and more generally whenever
`ReCall` reports the error of the context, the method returns nil with that
cancellation error. -/
theorem done_context_one_ReCall (d : Deps) (c : Client) (m : Method) (ctx : Context)
    (req : Request)
    (hdone : ctx.Err = some GoError.canceled ∨ ctx.Err = some GoError.deadlineExceeded) :
    (c.forward d m ctx req).reCalls = [ctx]
    ∧ (∀ client : IndexCoordClient,
        c.callerOf d m ctx req client = ⟨AnyVal.nil, ctx.Err, []⟩)
    ∧ (∀ client : IndexCoordClient,
        c.invoke d m ctx req
          = ((c.callerOf d m ctx req client).ret, (c.callerOf d m ctx req client).err) →
        (c.forward d m ctx req).out = Exec.ret (none, ctx.Err))
    ∧ ((c.invoke d m ctx req).2 = ctx.Err →
        (c.forward d m ctx req).out = Exec.ret (none, ctx.Err)) := by
  have hvalid : CheckCtxValid ctx = false := (checkCtxValid_false_iff ctx).mpr hdone
  have hne : ctx.Err ≠ none := by
    rcases hdone with h | h <;> simp [h]
  have hret : (c.invoke d m ctx req).2 = ctx.Err →
      (c.forward d m ctx req).out = Exec.ret (none, ctx.Err) := by
    intro herr
    have hne2 : (c.invoke d m ctx req).2 ≠ none := by rw [herr]; exact hne
    rw [forward_out_eq, if_pos (Or.inl hne2), herr]
  refine ⟨forward_reCalls_eq d c m ctx req, ?_, ?_, hret⟩
  · intro client
    rw [callerOf_not_valid d c m ctx req client hvalid]
    rfl
  · intro client hans
    apply hret
    rw [hans, callerOf_not_valid d c m ctx req client hvalid]
    rfl

/-- Claim C2 as amended, at `CheckHealth` on a cancelled context with a
`ReCall` that runs the closure once on the sample stub. -/
theorem done_context_one_ReCall_witness :
    (ctxCanceled.Err = some GoError.canceled ∨ ctxCanceled.Err = some GoError.deadlineExceeded)
    ∧ ((sampleClient runOnce (sampleSessions, 0, none)).forward sampleDeps
        Method.CheckHealth ctxCanceled Request.zero).reCalls = [ctxCanceled]
    ∧ ((sampleClient runOnce (sampleSessions, 0, none)).callerOf sampleDeps
        Method.CheckHealth ctxCanceled Request.zero sampleStub)
      = ⟨AnyVal.nil, some GoError.canceled, []⟩
    ∧ ((sampleClient runOnce (sampleSessions, 0, none)).forward sampleDeps
        Method.CheckHealth ctxCanceled Request.zero).out
      = Exec.ret (none, some GoError.canceled) :=
  ⟨Or.inl rfl,
   (done_context_one_ReCall sampleDeps (sampleClient runOnce (sampleSessions, 0, none))
      Method.CheckHealth ctxCanceled Request.zero (Or.inl rfl)).1,
   (done_context_one_ReCall sampleDeps (sampleClient runOnce (sampleSessions, 0, none))
      Method.CheckHealth ctxCanceled Request.zero (Or.inl rfl)).2.1 sampleStub,
   (done_context_one_ReCall sampleDeps (sampleClient runOnce (sampleSessions, 0, none))
      Method.CheckHealth ctxCanceled Request.zero (Or.inl rfl)).2.2.1 sampleStub rfl⟩

/-- Claim C3 fails as stated: when `ReCall` reports success without a result,
`GetIndexState` returns a nil response together with a nil error. -/
theorem nil_response_with_nil_error :
    ((sampleClient emptySuccess (sampleSessions, 0, none)).forward sampleDeps
        Method.GetIndexState ctxLive Request.zero).out = Exec.ret (none, none) := by
  decide

/-- Claim C3 as amended: for every forwarding method and every outcome of
`ReCall`, the method returns a nil response together with a nil error
exactly when `ReCall` returned a nil error with a nil result, the nil
interface or a nil pointer of the response type of the method. -/
theorem forward_nil_nil_iff (d : Deps) (c : Client) (m : Method) (ctx : Context)
    (req : Request) :
    (c.forward d m ctx req).out = Exec.ret (none, none) ↔
      (c.invoke d m ctx req).2 = none
      ∧ ((c.invoke d m ctx req).1 = AnyVal.nil
          ∨ (c.invoke d m ctx req).1 = AnyVal.ptr m.respType none) := by
  rw [forward_out_eq]
  generalize c.invoke d m ctx req = r
  obtain ⟨ret, err⟩ := r
  cases ret with
  | nil => cases err <;> simp
  | ptr ty p =>
    cases err with
    | some e => simp
    | none =>
      by_cases hty : ty = m.respType
      · subst hty
        simp [returnAsserted, AnyVal.assert]
      · simp [returnAsserted, AnyVal.assert, hty]

/-- Claim C4: for every forwarding method, whenever its closure is run while
the context is already cancelled or past its deadline, the closure performs
no remote call and returns a nil result with the error of the context. -/
theorem caller_done_no_remote_call (d : Deps) (c : Client) (m : Method) (ctx : Context)
    (req : Request) (client : IndexCoordClient)
    (hdone : ctx.Err = some GoError.canceled ∨ ctx.Err = some GoError.deadlineExceeded) :
    (c.callerOf d m ctx req client).remote = []
    ∧ (c.callerOf d m ctx req client).ret = AnyVal.nil
    ∧ (c.callerOf d m ctx req client).err = ctx.Err := by
  rw [callerOf_not_valid d c m ctx req client ((checkCtxValid_false_iff ctx).mpr hdone)]
  exact ⟨rfl, rfl, rfl⟩

/-- Claim C4 at `DropIndex` on a context past its deadline. -/
theorem caller_done_no_remote_call_witness :
    ((sampleClient runOnce (sampleSessions, 0, none)).callerOf sampleDeps Method.DropIndex
        ⟨some GoError.deadlineExceeded⟩ Request.zero sampleStub).remote = []
    ∧ ((sampleClient runOnce (sampleSessions, 0, none)).callerOf sampleDeps Method.DropIndex
        ⟨some GoError.deadlineExceeded⟩ Request.zero sampleStub).ret = AnyVal.nil
    ∧ ((sampleClient runOnce (sampleSessions, 0, none)).callerOf sampleDeps Method.DropIndex
        ⟨some GoError.deadlineExceeded⟩ Request.zero sampleStub).err
      = some GoError.deadlineExceeded :=
  caller_done_no_remote_call sampleDeps (sampleClient runOnce (sampleSessions, 0, none))
    Method.DropIndex ⟨some GoError.deadlineExceeded⟩ Request.zero sampleStub (Or.inr rfl)

/-- Claim C9: every forwarding method calls `ReCall` exactly once, and
whenever `ReCall` returns a nil error with a value of the response type of
the method, the method returns that same pointer with a nil error: the type
assertion succeeds. -/
theorem forward_passes_response (d : Deps) (c : Client) (m : Method) (ctx : Context)
    (req : Request) (p : Option Msg)
    (h : c.invoke d m ctx req = (AnyVal.ptr m.respType p, none)) :
    (c.forward d m ctx req).reCalls = [ctx]
    ∧ (c.forward d m ctx req).out = Exec.ret (p, none) := by
  refine ⟨forward_reCalls_eq d c m ctx req, ?_⟩
  rw [forward_out_eq, h]
  simp [returnAsserted, AnyVal.assert]

/-- Claim C9 at `DescribeIndex` on a live context, with a `ReCall` that runs
the closure once on a stub answering the message at address 7. -/
theorem forward_passes_response_witness :
    ((sampleClient runOnce (sampleSessions, 0, none)).forward sampleDeps
        Method.DescribeIndex ctxLive Request.zero).reCalls = [ctxLive]
    ∧ ((sampleClient runOnce (sampleSessions, 0, none)).forward sampleDeps
        Method.DescribeIndex ctxLive Request.zero).out = Exec.ret (some ⟨7⟩, none) :=
  forward_passes_response sampleDeps (sampleClient runOnce (sampleSessions, 0, none))
    Method.DescribeIndex ctxLive Request.zero (some ⟨7⟩) rfl

/-! ### The address resolver -/

/-- Claim C5: when the registry query succeeds and its answer holds no entry
under the role of the client, `getIndexCoordAddr` returns the empty address
together with the error "find no available indexcoord, check indexcoord
state", which is not nil. -/
theorem getIndexCoordAddr_no_instance (c : Client) (h : Heap)
    (hq : (c.sess.GetSessions c.grpcClient.GetRole).2.2 = none)
    (hk : (c.sess.GetSessions c.grpcClient.GetRole).1.get c.grpcClient.GetRole = none) :
    c.getIndexCoordAddr h
      = Exec.ret ("", some (fmtErrorf h "find no available indexcoord, check indexcoord state"))
    := by
  simp [Client.getIndexCoordAddr, hq, hk]

/-- Claim C5 on a registry answer that holds a data coordinator only. -/
theorem getIndexCoordAddr_no_instance_witness :
    (sampleClient runOnce (otherSessions, 0, none)).getIndexCoordAddr sampleHeap
      = Exec.ret ("", some (GoError.errorString 64
          "find no available indexcoord, check indexcoord state")) :=
  getIndexCoordAddr_no_instance (sampleClient runOnce (otherSessions, 0, none)) sampleHeap
    rfl (by decide)

/-- Claim C6 fails as stated: the resolver returns the error of the registry
query as it is, not as a dedicated error kind, and that error need not
differ from the no-instance error.  A query that fails with an error of the
no-instance text, built during the call, gives the very result that a
successful query without an index coordinator gives; and a query that fails
with a time-out gives that raw error, which wraps nothing. -/
theorem registry_error_returned_raw :
    (sampleClient runOnce ([], 0, some registryLookalike)).getIndexCoordAddr sampleHeap
      = Exec.ret ("", some registryLookalike)
    ∧ (sampleClient runOnce ([], 0, some registryLookalike)).getIndexCoordAddr sampleHeap
      = (sampleClient runOnce (otherSessions, 0, none)).getIndexCoordAddr sampleHeap
    ∧ (sampleClient runOnce ([], 0, some etcdDown)).getIndexCoordAddr sampleHeap
      = Exec.ret ("", some etcdDown)
    ∧ etcdDown.Unwrap = none := by
  refine ⟨by decide, by decide, by decide, rfl⟩

/-- Claim C6 as amended: when the registry query itself fails with error `e`,
`getIndexCoordAddr` returns the empty address, never an address, together
with `e` itself, unmodified and unwrapped; and when the text of `e` is not
the text of the no-instance error, this result differs from every result of
the resolver on a successful query that holds no instance for the role. -/
theorem getIndexCoordAddr_query_failed (c : Client) (h : Heap) (e : GoError)
    (hq : (c.sess.GetSessions c.grpcClient.GetRole).2.2 = some e) :
    c.getIndexCoordAddr h = Exec.ret ("", some e)
    ∧ (e.Error ≠ "find no available indexcoord, check indexcoord state" →
        ∀ (c2 : Client) (g : Heap),
          (c2.sess.GetSessions c2.grpcClient.GetRole).2.2 = none →
          (c2.sess.GetSessions c2.grpcClient.GetRole).1.get c2.grpcClient.GetRole = none →
          c2.getIndexCoordAddr g ≠ c.getIndexCoordAddr h) := by
  have hres : c.getIndexCoordAddr h = Exec.ret ("", some e) := by
    simp [Client.getIndexCoordAddr, hq]
  refine ⟨hres, ?_⟩
  intro htext c2 g hq2 hk2 heq
  rw [hres] at heq
  simp [Client.getIndexCoordAddr, hq2, hk2, fmtErrorf] at heq
  apply htext
  rw [← heq]
  rfl

/-- Claim C6 as amended, on a registry that cannot be reached: the time-out
comes back as it is, and differs from the result on a registry answer that
holds a data coordinator only. -/
theorem getIndexCoordAddr_query_failed_witness :
    (sampleClient runOnce ([], 0, some etcdDown)).getIndexCoordAddr sampleHeap
      = Exec.ret ("", some etcdDown)
    ∧ (sampleClient runOnce (otherSessions, 0, none)).getIndexCoordAddr sampleHeap
      ≠ (sampleClient runOnce ([], 0, some etcdDown)).getIndexCoordAddr sampleHeap :=
  ⟨(getIndexCoordAddr_query_failed (sampleClient runOnce ([], 0, some etcdDown)) sampleHeap
      etcdDown rfl).1,
   (getIndexCoordAddr_query_failed (sampleClient runOnce ([], 0, some etcdDown)) sampleHeap
      etcdDown rfl).2 (by decide)
      (sampleClient runOnce (otherSessions, 0, none)) sampleHeap rfl (by decide)⟩

/-- Claim C7: when the registry query succeeds and its answer holds an
instance `ms` under the role of the client, `getIndexCoordAddr` returns the
address of `ms` with a nil error; `ms` is one of the returned instances; and
the result is a function of the role and of that answer only: any client
with the same role that gets the same answer resolves to the same result,
whatever its heap and the rest of its state. -/
theorem getIndexCoordAddr_found (c : Client) (h : Heap) (ms : Session)
    (hq : (c.sess.GetSessions c.grpcClient.GetRole).2.2 = none)
    (hk : (c.sess.GetSessions c.grpcClient.GetRole).1.get c.grpcClient.GetRole
            = some (some ms)) :
    c.getIndexCoordAddr h = Exec.ret (ms.Address, none)
    ∧ (c.grpcClient.GetRole, some ms) ∈ (c.sess.GetSessions c.grpcClient.GetRole).1
    ∧ ∀ (c2 : Client) (h2 : Heap),
        c2.grpcClient.GetRole = c.grpcClient.GetRole →
        c2.sess.GetSessions c2.grpcClient.GetRole
          = c.sess.GetSessions c.grpcClient.GetRole →
        c2.getIndexCoordAddr h2 = c.getIndexCoordAddr h := by
  have hres : ∀ (k : Client) (g : Heap),
      k.grpcClient.GetRole = c.grpcClient.GetRole →
      k.sess.GetSessions k.grpcClient.GetRole = c.sess.GetSessions c.grpcClient.GetRole →
      k.getIndexCoordAddr g = Exec.ret (ms.Address, none) := by
    intro k g hrole hans
    have hq2 : (k.sess.GetSessions k.grpcClient.GetRole).2.2 = none := by rw [hans]; exact hq
    have hk2 : (k.sess.GetSessions k.grpcClient.GetRole).1.get k.grpcClient.GetRole
        = some (some ms) := by rw [hans, hrole]; exact hk
    simp [Client.getIndexCoordAddr, hq2, hk2]
  refine ⟨hres c h rfl rfl, lookup_mem _ _ _ hk, ?_⟩
  intro c2 h2 hrole hans
  rw [hres c2 h2 hrole hans, hres c h rfl rfl]

/-- Claim C7 on a registry answer with one index coordinator. -/
theorem getIndexCoordAddr_found_witness :
    (sampleClient runOnce (sampleSessions, 0, none)).getIndexCoordAddr sampleHeap
      = Exec.ret ("10.0.0.1:31000", none) :=
  (getIndexCoordAddr_found (sampleClient runOnce (sampleSessions, 0, none)) sampleHeap
    ⟨5, "10.0.0.1:31000"⟩ rfl (by decide)).1

/-! ### Stop -/

/-- Claim C8: for every client, a second `Stop` right after a first one is a
no-op that returns nil: the client, its connection state and its count of
connection-factory calls are left as the first `Stop` left them. -/
theorem Stop_twice_noop (c : Client) :
    (c.Stop.2).Stop = (none, c.Stop.2) := by
  cases hc : c.grpcClient.conn <;> simp [Client.Stop, GrpcClient.Close, hc]

end grpcindexcoordclient

end Milvus
